import Mathlib

/-!
Verification of the OMNIPLEX UK SENTINEL trust/safety core.

This development is a shallow embedding of the Python sources

  * `sentinel/protocols/triple_check.py`   (TripleCheckProtocol)
  * `sentinel/protocols/freeze_protocol.py` (FreezeProtocol)
  * `sentinel/agents/brain/westminster_watch.py` (WestminsterWatch)

Modelling conventions:

  * Python `dict` values are association lists `List (String × β)` preserving
    insertion order, as CPython dictionaries do; an update of an existing key
    keeps its position, a new key is appended at the end.
  * Python `float` is modelled by `ℚ` (all reliability scores and thresholds
    in the source are short decimal literals, and all arithmetic performed on
    them is sums, divisions and comparisons).
  * `datetime.now()` is modelled by a `clock : Nat` field (seconds since the
    epoch) held constant during one call; the `strftime` second-granularity
    rendering used for freeze-event ids is modelled by a decimal rendering of
    that second.  Wall-clock text that only decorates log strings and audit
    trails (iso timestamps inside `verification_chain` entries) is omitted.
  * `asyncio` coroutines contain no concurrency in these modules (every call
    is immediately awaited), so methods are embedded as pure state-passing
    functions returning the updated object together with the Python return
    value.
  * `hashlib.sha256(...).hexdigest()` is a fixed deterministic function of
    its input string; it is threaded through as an explicit parameter
    `sha : String → String` of the hashing code.
-/

namespace Sentinel

/-- Python `d[k] = v` on an insertion-ordered dictionary represented as an
association list: replace the value at the first occurrence of the key,
otherwise append the new binding at the end. -/
def updateA {β : Type} (l : List (String × β)) (k : String) (v : β) :
    List (String × β) :=
  match l with
  | [] => [(k, v)]
  | (k', v') :: t => if k' = k then (k, v) :: t else (k', v') :: updateA t k v

/-- Membership of a key in an association list (Python `k in d`). -/
def containsA {β : Type} (l : List (String × β)) (k : String) : Bool :=
  (List.lookup k l).isSome

namespace TripleCheck

/-- `CheckType` enum of `triple_check.py`. -/
inductive CheckType
  | PRIMARY
  | SECONDARY
  | PATTERN
deriving DecidableEq

/-- `VerificationStatus` enum of `triple_check.py`. -/
inductive VerificationStatus
  | VERIFIED
  | PARTIAL
  | FAILED
  | PENDING
  | ESCALATED
deriving DecidableEq

/-- `SourceReference` dataclass (the `last_verified` timestamp, which is never
read, is omitted). -/
structure SourceReference where
  name : String
  url : String
  tier : String
  reliability_score : ℚ
deriving DecidableEq

/-- `CheckResult` dataclass (timestamp and `error`, never read, omitted). -/
structure CheckResult where
  check_type : CheckType
  passed : Bool
  confidence : ℚ
  sources_used : List SourceReference
  evidence : String
deriving DecidableEq

/-- `TripleCheckResult` dataclass (timestamp and the `verification_chain`
audit-trail strings, which contain wall-clock text and are never read back,
are omitted). -/
structure TripleCheckResult where
  data_id : String
  data_hash : String
  original_data : List (String × String)
  primary_check : CheckResult
  secondary_check : CheckResult
  pattern_check : CheckResult
  overall_status : VerificationStatus
  overall_confidence : ℚ
  human_reviewed : Bool := false
deriving DecidableEq

/-- Mutable state of `TripleCheckProtocol` (`historical_db`, written nowhere,
omitted). -/
structure TripleCheckProtocol where
  primary_sources : List (String × SourceReference)
  secondary_sources : List (String × SourceReference)
  confidence_threshold : ℚ := 7/10
  min_sources_required : Nat := 2
  total_verifications : Nat := 0
  successful_verifications : Nat := 0
  escalations : Nat := 0

/-- `_init_default_sources` together with `__init__`: the protocol state a
fresh `TripleCheckProtocol()` starts from. -/
def TripleCheckProtocol.init : TripleCheckProtocol :=
  { primary_sources :=
      [ ("hansard",
          { name := "UK Hansard", url := "https://hansard.parliament.uk/",
            tier := "official", reliability_score := 99/100 }),
        ("parliament",
          { name := "UK Parliament", url := "https://www.parliament.uk/",
            tier := "official", reliability_score := 99/100 }),
        ("legislation",
          { name := "Legislation.gov.uk", url := "https://www.legislation.gov.uk/",
            tier := "official", reliability_score := 99/100 }),
        ("ons",
          { name := "Office for National Statistics", url := "https://www.ons.gov.uk/",
            tier := "official", reliability_score := 98/100 }) ],
    secondary_sources :=
      [ ("theyworkforyou",
          { name := "TheyWorkForYou", url := "https://www.theyworkforyou.com/",
            tier := "independent", reliability_score := 92/100 }),
        ("publicwhip",
          { name := "Public Whip", url := "https://www.publicwhip.org.uk/",
            tier := "independent", reliability_score := 90/100 }),
        ("fullfact",
          { name := "Full Fact", url := "https://fullfact.org/",
            tier := "independent", reliability_score := 95/100 }) ] }

/-- `_select_sources`: the MVP returns all sources unchanged. -/
def select_sources (sources : List (String × SourceReference))
    (dataType : String) : List (String × SourceReference) :=
  sources

/-- `_verify_against_source`: the MVP simulates a successful consultation for
every source. -/
def verify_against_source (data : List (String × String))
    (source : SourceReference) : Bool × String :=
  (true, "Confirmed by " ++ source.name)

/-- `_extract_features`. -/
def extract_features (data : List (String × String)) (dataType : String) :
    String × List String :=
  (dataType, data.map (·.1))

/-- `_match_historical`: the MVP returns one match and no anomalies. -/
def match_historical (features : String × List String) :
    List String × List String :=
  (["similar_pattern_001"], [])

/-- Python `str` of one sorted `(key, value)` item, `\x27` being the quote
character `repr` puts around each string. -/
def reprItem (kv : String × String) : String :=
  "(\x27" ++ kv.1 ++ "\x27, \x27" ++ kv.2 ++ "\x27)"

/-- Lexicographic comparison of `(key, value)` pairs: Python `sorted` on a
list of string tuples. -/
def itemLe (a b : String × String) : Bool :=
  decide (a.1 < b.1 ∨ (a.1 = b.1 ∧ a.2 ≤ b.2))

/-- Python `str(sorted(data.items()))`. -/
def reprSortedItems (data : List (String × String)) : String :=
  "[" ++ String.intercalate ", " ((data.mergeSort itemLe).map reprItem) ++ "]"

/-- `_hash_data`: serialize the key-sorted items, hash, keep 16 hex digits.
`sha` stands for `hashlib.sha256(...).hexdigest()`, a fixed deterministic
function of the serialized string. -/
def hash_data (sha : String → String) (data : List (String × String)) :
    String :=
  (sha (reprSortedItems data)).take 16

/-- `_check_primary`. -/
def check_primary (p : TripleCheckProtocol) (data : List (String × String))
    (dataType : String) : CheckResult :=
  let sources_used := (select_sources p.primary_sources dataType).map (·.2)
  let evidence_parts := sources_used.map fun s => (verify_against_source data s).2
  let passed := decide (p.min_sources_required ≤ sources_used.length)
  let confidence :=
    min (if sources_used.length ≠ 0 then
           (sources_used.map (·.reliability_score)).sum / sources_used.length
         else 0)
      1
  { check_type := .PRIMARY, passed := passed, confidence := confidence,
    sources_used := sources_used,
    evidence := String.intercalate "; " evidence_parts }

/-- `_check_secondary`. -/
def check_secondary (p : TripleCheckProtocol) (data : List (String × String))
    (dataType : String) : CheckResult :=
  let sources_used := (select_sources p.secondary_sources dataType).map (·.2)
  let evidence_parts := sources_used.map fun s => (verify_against_source data s).2
  let passed := decide (1 ≤ sources_used.length)
  let confidence :=
    if sources_used.length ≠ 0 then
      (sources_used.map (·.reliability_score)).sum / sources_used.length
    else 0
  { check_type := .SECONDARY, passed := passed, confidence := confidence,
    sources_used := sources_used,
    evidence := String.intercalate "; " evidence_parts }

/-- `_check_pattern`. -/
def check_pattern (p : TripleCheckProtocol) (data : List (String × String))
    (dataType : String) : CheckResult :=
  let features := extract_features data dataType
  let mh := match_historical features
  let passed := decide ((mh.2).length = 0 ∧ 0 < (mh.1).length)
  let confidence : ℚ := if passed then 4/5 else 2/5
  { check_type := .PATTERN, passed := passed, confidence := confidence,
    sources_used := [],
    evidence := "Pattern matches: " ++ toString (mh.1).length ++
      ", Anomalies: " ++ toString (mh.2).length }

/-- `verify`: runs the three checks, resolves the overall status, updates the
metrics counters, and returns the result together with the updated protocol
state.  The auto-generated `data_id` fallback (a wall-clock string) is
modelled by the constant `"auto"`. -/
def verify (sha : String → String) (p : TripleCheckProtocol)
    (data : List (String × String)) (dataType : String) :
    TripleCheckResult × TripleCheckProtocol :=
  let data_id := (List.lookup "id" data).getD "auto"
  let data_hash := hash_data sha data
  let primary_result := check_primary p data dataType
  let secondary_result := check_secondary p data dataType
  let pattern_result := check_pattern p data dataType
  let passed_count : Nat :=
    (if primary_result.passed then 1 else 0) +
    (if secondary_result.passed then 1 else 0) +
    (if pattern_result.passed then 1 else 0)
  let overall_confidence :=
    (primary_result.confidence + secondary_result.confidence +
      pattern_result.confidence) / 3
  let status0 : VerificationStatus :=
    if passed_count = 3 then .VERIFIED
    else if 1 ≤ passed_count then .PARTIAL
    else .FAILED
  let escalate := status0 = VerificationStatus.PARTIAL ∧ overall_confidence < 1/2
  let status : VerificationStatus := if escalate then .ESCALATED else status0
  let result : TripleCheckResult :=
    { data_id := data_id, data_hash := data_hash, original_data := data,
      primary_check := primary_result, secondary_check := secondary_result,
      pattern_check := pattern_result, overall_status := status,
      overall_confidence := overall_confidence }
  let p' : TripleCheckProtocol :=
    { p with
      escalations := p.escalations + (if escalate then 1 else 0),
      total_verifications := p.total_verifications + 1,
      successful_verifications :=
        p.successful_verifications +
          (if status = VerificationStatus.VERIFIED then 1 else 0) }
  (result, p')

/-- The Scenario A registry of §8 of the spec: exactly `hansard` (0.99) and
`parliament` (0.99) as primary sources and `theyworkforyou` (0.92) as
secondary source. -/
def scenarioA : TripleCheckProtocol :=
  { primary_sources :=
      [ ("hansard",
          { name := "UK Hansard", url := "https://hansard.parliament.uk/",
            tier := "official", reliability_score := 99/100 }),
        ("parliament",
          { name := "UK Parliament", url := "https://www.parliament.uk/",
            tier := "official", reliability_score := 99/100 }) ],
    secondary_sources :=
      [ ("theyworkforyou",
          { name := "TheyWorkForYou", url := "https://www.theyworkforyou.com/",
            tier := "independent", reliability_score := 92/100 }) ] }

end TripleCheck

namespace Freeze

/-- `SystemState` enum of `freeze_protocol.py`. -/
inductive SystemState
  | ACTIVE
  | FROZEN
  | RECOVERING
  | MAINTENANCE
deriving DecidableEq

/-- `FreezeReason` enum. -/
inductive FreezeReason
  | ARM_FAILURE
  | VERIFICATION_FAILURE
  | DATA_INTEGRITY
  | API_ERROR
  | ANOMALY_DETECTED
  | HUMAN_TRIGGERED
  | SECURITY_CONCERN
deriving DecidableEq

/-- `RecoveryAction` enum. -/
inductive RecoveryAction
  | RESTART_ARM
  | CLEAR_CACHE
  | ROLLBACK_DATA
  | HUMAN_REVIEW
  | FULL_DIAGNOSTIC
deriving DecidableEq

/-- `FreezeEvent` dataclass.  Timestamps are epoch seconds (`Nat`). -/
structure FreezeEvent where
  event_id : String
  timestamp : Nat
  reason : FreezeReason
  trigger_source : String
  details : String
  affected_components : List String
  resolved : Bool := false
  resolution_time : Option Nat := none
  resolution_action : Option String := none
deriving DecidableEq

/-- A monitored component, as the duck-typed surface `freeze_protocol.py`
probes with `hasattr`: optional `pause`, `resume` and `health_check`
capabilities over an internal `active` flag.  `pause` clears the flag,
`resume` sets it, and `health_check` reports `ACTIVE`/`PAUSED` from it —
the semantics of the components this repository registers (the demo's
`MockArm`; the Hansard/Veritas arms behave the same way for the fields the
protocol reads).  None of the repository's components raise from these
calls, so the `except` branches of the source (status `"ERROR"`) are
unreachable and not modelled. -/
structure Component where
  hasPause : Bool := true
  hasResume : Bool := true
  hasHealthCheck : Bool := true
  active : Bool := true
deriving DecidableEq

/-- The `status` field of a component's `health_check()` payload. -/
def healthStatus (c : Component) : String :=
  if c.active then "ACTIVE" else "PAUSED"

/-- `DiagnosticReport` dataclass. -/
structure DiagnosticReport where
  timestamp : Nat
  system_state : SystemState
  freeze_event : Option FreezeEvent
  component_status : List (String × String)
  data_integrity_score : ℚ
  recent_verifications : Nat := 0
  verification_success_rate : ℚ := 0
  recommended_actions : List RecoveryAction
  estimated_recovery_time : String := "5-10 minutes"
  human_intervention_required : Bool
deriving DecidableEq

/-- Mutable state of `FreezeProtocol`.  `clock` models `datetime.now()` at
second granularity and is held constant within a call.  The
`brain_callback` notification (an outbound call that does not touch the
protocol's own state) is not modelled. -/
structure FreezeProtocol where
  state : SystemState := .ACTIVE
  current_freeze : Option FreezeEvent := none
  components : List (String × Component) := []
  component_status : List (String × String) := []
  freeze_history : List FreezeEvent := []
  auto_recovery_enabled : Bool := true
  max_auto_recovery_attempts : Nat := 3
  recovery_attempts : Nat := 0
  clock : Nat := 0
deriving DecidableEq

/-- `register_component`: store the component and set its status `"ACTIVE"`. -/
def register_component (p : FreezeProtocol) (name : String)
    (component : Component) : FreezeProtocol :=
  { p with
    components := updateA p.components name component,
    component_status := updateA p.component_status name "ACTIVE" }

/-- `_halt_components`: pause every pausable component and mark every
registered component `"PAUSED"`. -/
def halt_components (p : FreezeProtocol) : FreezeProtocol :=
  { p with
    components := p.components.map fun nc =>
      (nc.1, if nc.2.hasPause then { nc.2 with active := false } else nc.2),
    component_status :=
      p.components.foldl (fun st nc => updateA st nc.1 "PAUSED")
        p.component_status }

/-- `_calculate_integrity_score`: fraction of statuses equal to `"ACTIVE"`,
`0` when no component is registered. -/
def calculate_integrity_score (st : List (String × String)) : ℚ :=
  if st.isEmpty then 0
  else ((st.filter fun kv => decide (kv.2 = "ACTIVE")).length : ℚ) / st.length

/-- `_determine_recovery_actions`: the reason → actions table. -/
def determine_recovery_actions (cf : Option FreezeEvent) :
    List RecoveryAction :=
  match cf with
  | none => []
  | some e =>
    match e.reason with
    | .ARM_FAILURE => [.RESTART_ARM]
    | .DATA_INTEGRITY => [.ROLLBACK_DATA, .HUMAN_REVIEW]
    | .API_ERROR => [.CLEAR_CACHE, .RESTART_ARM]
    | .SECURITY_CONCERN => [.FULL_DIAGNOSTIC, .HUMAN_REVIEW]
    | _ => [.FULL_DIAGNOSTIC]

/-- `run_diagnostics`: re-probe every component's health into the status
map, compute the integrity score, derive recommended actions and the
human-intervention flag (Python `a or (cf and cf.reason in [...])`, with a
falsy `None` result mapped to `false`). -/
def run_diagnostics (p : FreezeProtocol) :
    FreezeProtocol × DiagnosticReport :=
  let st := p.components.foldl
    (fun st nc =>
      updateA st nc.1
        (if nc.2.hasHealthCheck then healthStatus nc.2 else "NO_HEALTH_CHECK"))
    p.component_status
  let integrity := calculate_integrity_score st
  let actions := determine_recovery_actions p.current_freeze
  let human_needed :=
    decide (p.max_auto_recovery_attempts ≤ p.recovery_attempts) ||
      (match p.current_freeze with
       | some e =>
         decide (e.reason = FreezeReason.SECURITY_CONCERN ∨
           e.reason = FreezeReason.DATA_INTEGRITY)
       | none => false)
  ({ p with component_status := st },
   { timestamp := p.clock, system_state := p.state,
     freeze_event := p.current_freeze, component_status := st,
     data_integrity_score := integrity, recommended_actions := actions,
     human_intervention_required := human_needed })

/-- `_execute_recovery_action`: returns the updated state and the action's
success flag.  `RESTART_ARM` resumes the components named in the current
freeze's affected list; `CLEAR_CACHE` iterates components looking for a
`clear_cache` attribute none of this repository's components has;
`HUMAN_REVIEW` always reports failure. -/
def execute_recovery_action (p : FreezeProtocol) (action : RecoveryAction) :
    FreezeProtocol × Bool :=
  match action with
  | .RESTART_ARM =>
    (match p.current_freeze with
     | some e =>
       { p with
         components := p.components.map fun nc =>
           if nc.1 ∈ e.affected_components ∧ nc.2.hasResume = true then
             (nc.1, { nc.2 with active := true })
           else nc }
     | none => p,
     true)
  | .CLEAR_CACHE => (p, true)
  | .ROLLBACK_DATA => (p, true)
  | .FULL_DIAGNOSTIC => (p, true)
  | .HUMAN_REVIEW => (p, false)

/-- The action loop of `_attempt_auto_recovery`: execute in order, stop at
the first action that reports failure. -/
def execute_actions : FreezeProtocol → List RecoveryAction →
    FreezeProtocol × Bool
  | p, [] => (p, true)
  | p, a :: rest =>
    let r := execute_recovery_action p a
    if r.2 then execute_actions r.1 rest else (r.1, false)

/-- `unfreeze`: no-op returning `True` when not frozen; rejected (`False`)
on an empty authorization; otherwise resume every resumable component, mark
every status `"ACTIVE"`, mark the current FreezeEvent resolved (the Python
object is aliased by the last history entry, so that entry is updated too),
clear it, reset the attempt counter and return to `ACTIVE` (the transient
`RECOVERING` assignment is overwritten before the method returns). -/
def unfreeze (p : FreezeProtocol) (authorization : String) :
    FreezeProtocol × Bool :=
  if p.state ≠ SystemState.FROZEN then (p, true)
  else if authorization = "" then (p, false)
  else
    let comps := p.components.map fun nc =>
      (nc.1, if nc.2.hasResume then { nc.2 with active := true } else nc.2)
    let st := p.components.foldl (fun st nc => updateA st nc.1 "ACTIVE")
      p.component_status
    let hist :=
      match p.current_freeze with
      | none => p.freeze_history
      | some e =>
        p.freeze_history.dropLast ++
          [{ e with
              resolved := true,
              resolution_time := some p.clock,
              resolution_action := some authorization }]
    ({ p with
        state := SystemState.ACTIVE,
        current_freeze := none,
        recovery_attempts := 0,
        components := comps,
        component_status := st,
        freeze_history := hist },
     true)

/-- `_attempt_auto_recovery`: skip when diagnostics require a human or the
attempt budget is spent; otherwise count the attempt, run the recommended
actions, re-run diagnostics and unfreeze with authorization
`"auto_recovery"` exactly when the post-recovery integrity score reaches
0.8. -/
def attempt_auto_recovery (p : FreezeProtocol)
    (diagnostics : DiagnosticReport) : FreezeProtocol × Bool :=
  if diagnostics.human_intervention_required then (p, false)
  else if p.max_auto_recovery_attempts ≤ p.recovery_attempts then (p, false)
  else
    let p1 := { p with recovery_attempts := p.recovery_attempts + 1 }
    let r := execute_actions p1 diagnostics.recommended_actions
    if r.2 then
      let q := run_diagnostics r.1
      if (4 : ℚ)/5 ≤ q.2.data_integrity_score then
        ((unfreeze q.1 "auto_recovery").1, true)
      else (q.1, false)
    else (r.1, false)

/-- Decimal rendering of a `Nat`, standing in for the
`strftime("%Y%m%d_%H%M%S")` second-granularity rendering of the wall clock:
both are injective functions of the second the freeze is triggered in. -/
def decimalRepr (n : Nat) : String :=
  String.mk (((Nat.digits 10 n).map Nat.digitChar).reverse)

/-- The id `trigger_freeze` gives a new event:
`f"freeze_{datetime.now().strftime('%Y%m%d_%H%M%S')}"`. -/
def freeze_event_id (t : Nat) : String :=
  "freeze_" ++ decimalRepr t

/-- The affected-components list of a new freeze:
`affected_components or list(self.components.keys())` — an empty Python
list is falsy, so `[]` also defaults to all registered names. -/
def resolve_affected (p : FreezeProtocol)
    (affected_components : Option (List String)) : List String :=
  match affected_components with
  | some l => if l.isEmpty then p.components.map (·.1) else l
  | none => p.components.map (·.1)

/-- The `FreezeEvent` a non-idempotent `trigger_freeze` call creates. -/
def new_freeze_event (p : FreezeProtocol) (reason : FreezeReason)
    (trigger_source details : String)
    (affected_components : Option (List String)) : FreezeEvent :=
  { event_id := freeze_event_id p.clock, timestamp := p.clock,
    reason := reason, trigger_source := trigger_source,
    details := details,
    affected_components := resolve_affected p affected_components }

/-- `trigger_freeze`: idempotent no-op returning the current event while
already frozen; otherwise create the event, append it to the history, halt
all components, run diagnostics and — when auto-recovery is enabled —
attempt recovery.  The Python return value is the created event object,
aliased by the last history entry (auto-recovery may have marked it
resolved by the time the method returns). -/
def trigger_freeze (p : FreezeProtocol) (reason : FreezeReason)
    (trigger_source details : String)
    (affected_components : Option (List String)) :
    FreezeProtocol × Option FreezeEvent :=
  if p.state = SystemState.FROZEN then (p, p.current_freeze)
  else
    let freeze_event : FreezeEvent :=
      new_freeze_event p reason trigger_source details affected_components
    let p1 := { p with
                state := SystemState.FROZEN,
                current_freeze := some freeze_event,
                freeze_history := p.freeze_history ++ [freeze_event] }
    let p2 := halt_components p1
    let pd := run_diagnostics p2
    let p3 :=
      if p.auto_recovery_enabled then (attempt_auto_recovery pd.1 pd.2).1
      else pd.1
    (p3, p3.freeze_history.getLast?)

/-- A concrete already-frozen protocol state used by witnesses. -/
def frozenEventW : FreezeEvent :=
  { event_id := "freeze_5", timestamp := 5, reason := .ARM_FAILURE,
    trigger_source := "hansard", details := "API connection timeout",
    affected_components := ["hansard"] }

/-- A concrete frozen `FreezeProtocol` state used by witnesses. -/
def frozenW : FreezeProtocol :=
  { state := .FROZEN, current_freeze := some frozenEventW,
    components := [("hansard", { active := false }), ("veritas", {})],
    component_status := [("hansard", "PAUSED"), ("veritas", "PAUSED")],
    freeze_history := [frozenEventW], recovery_attempts := 1, clock := 6 }

/-- A concrete non-frozen protocol state used by witnesses. -/
def activeW : FreezeProtocol :=
  { components := [("hansard", {}), ("veritas", {})],
    component_status := [("hansard", "ACTIVE"), ("veritas", "ACTIVE")],
    clock := 9 }

/-- The (unresolved) event the first same-second freeze creates. -/
def c8_ev1 : FreezeEvent :=
  { event_id := "freeze_5", timestamp := 5, reason := .ARM_FAILURE,
    trigger_source := "hansard", details := "first failure",
    affected_components := [] }

/-- `c8_ev1` as resolved by the manual unfreeze. -/
def c8_ev1r : FreezeEvent :=
  { c8_ev1 with
      resolved := true,
      resolution_time := some 5,
      resolution_action := some "admin_authorization" }

/-- The event the second same-second freeze creates. -/
def c8_ev2 : FreezeEvent :=
  { event_id := "freeze_5", timestamp := 5, reason := .ARM_FAILURE,
    trigger_source := "hansard", details := "second failure",
    affected_components := [] }

/-- State after the first freeze of the same-second scenario. -/
def c8_afterFirst : FreezeProtocol :=
  { state := .FROZEN, current_freeze := some c8_ev1,
    freeze_history := [c8_ev1], recovery_attempts := 1, clock := 5 }

/-- State after the manual unfreeze of the same-second scenario. -/
def c8_afterUnfreeze : FreezeProtocol :=
  { freeze_history := [c8_ev1r], clock := 5 }

/-- State after the second freeze of the same-second scenario. -/
def c8_afterSecond : FreezeProtocol :=
  { state := .FROZEN, current_freeze := some c8_ev2,
    freeze_history := [c8_ev1r, c8_ev2], recovery_attempts := 1,
    clock := 5 }

/-- The event a freeze triggered one second later creates. -/
def c8_ev6 : FreezeEvent :=
  { event_id := "freeze_6", timestamp := 6, reason := .ARM_FAILURE,
    trigger_source := "hansard", details := "first failure",
    affected_components := [] }

/-- State after the clock-6 freeze. -/
def c8_afterSixth : FreezeProtocol :=
  { state := .FROZEN, current_freeze := some c8_ev6,
    freeze_history := [c8_ev6], recovery_attempts := 1, clock := 6 }

/-- A security-concern freeze event for the auto-recovery witness. -/
def c4_event : FreezeEvent :=
  { event_id := "freeze_7", timestamp := 7, reason := .SECURITY_CONCERN,
    trigger_source := "veritas", details := "intrusion detected",
    affected_components := ["veritas"] }

/-- A frozen state whose freeze reason requires human intervention. -/
def c4_state : FreezeProtocol :=
  { state := .FROZEN, current_freeze := some c4_event,
    components := [("veritas", { active := false })],
    component_status := [("veritas", "PAUSED")], clock := 8 }

end Freeze

namespace Brain

/-- `ArmStatus` enum of `westminster_watch.py`. -/
inductive ArmStatus
  | ACTIVE
  | PAUSED
  | FAILED
  | INITIALIZING
deriving DecidableEq

/-- The brain's own `VerificationStatus` enum. -/
inductive VerificationStatus
  | VERIFIED
  | PARTIAL
  | FAILED
  | PENDING
deriving DecidableEq

/-- An arm instance; the brain treats it as an unexamined value, so only an
identity tag is modelled. -/
structure Arm where
  tag : String := ""
deriving DecidableEq

/-- The brain's `TripleCheckResult` dataclass (timestamp omitted). -/
structure TripleCheckResult where
  data_id : String
  primary_check : Bool
  secondary_check : Bool
  pattern_check : Bool
  confidence : ℚ
  sources : List String
deriving DecidableEq

/-- The `status` property: all checks → VERIFIED, any → PARTIAL,
none → FAILED. -/
def TripleCheckResult.status (r : TripleCheckResult) : VerificationStatus :=
  if r.primary_check && r.secondary_check && r.pattern_check then .VERIFIED
  else if r.primary_check || r.secondary_check || r.pattern_check then .PARTIAL
  else .FAILED

/-- Mutable state of `WestminsterWatch` (the constant `designation`,
`registry` and constitutional-law list are omitted: they are never read by
the operations modelled here). -/
structure WestminsterWatch where
  arms : List (String × Arm) := []
  arm_status : List (String × ArmStatus) := []
  frozen : Bool := false
  freeze_reason : Option String := none
  verifications_total : Nat := 0
  verifications_passed : Nat := 0
deriving DecidableEq

/-- `register_arm`: store the arm and set its status `INITIALIZING`. -/
def register_arm (w : WestminsterWatch) (arm_name : String)
    (arm_instance : Arm) : WestminsterWatch :=
  { w with
    arms := updateA w.arms arm_name arm_instance,
    arm_status := updateA w.arm_status arm_name ArmStatus.INITIALIZING }

/-- `_verify_primary`: MVP placeholder, always reports a match. -/
def verify_primary (data : List (String × String)) (sources : List String) :
    Bool :=
  true

/-- `_verify_secondary`: MVP placeholder, always reports a match. -/
def verify_secondary (data : List (String × String)) (sources : List String) :
    Bool :=
  true

/-- `_verify_pattern`: MVP placeholder, always reports a match. -/
def verify_pattern (data : List (String × String)) : Bool :=
  true

/-- The `data.get('id', str(hash(str(data))))` fallback: Python's builtin
`hash` of the rendered dict, a fixed deterministic tag; modelled as a
constant. -/
def default_data_id (data : List (String × String)) : String :=
  "auto"

/-- `triple_check`: raises (`Except.error`) without touching any state when
the system is frozen; otherwise runs the three placeholder checks, builds
the result and bumps the verification counters. -/
def triple_check (w : WestminsterWatch) (data : List (String × String))
    (primary_sources secondary_sources : List String) :
    WestminsterWatch × Except String TripleCheckResult :=
  if w.frozen then (w, Except.error "System is frozen - cannot verify")
  else
    let data_id := (List.lookup "id" data).getD (default_data_id data)
    let primary_check := verify_primary data primary_sources
    let secondary_check := verify_secondary data secondary_sources
    let pattern_check := verify_pattern data
    let confidence : ℚ :=
      ((if primary_check then 1 else 0) + (if secondary_check then 1 else 0) +
        (if pattern_check then 1 else 0)) / 3
    let result : TripleCheckResult :=
      { data_id := data_id, primary_check := primary_check,
        secondary_check := secondary_check, pattern_check := pattern_check,
        confidence := confidence,
        sources := primary_sources ++ secondary_sources }
    let w' := { w with
      verifications_total := w.verifications_total + 1,
      verifications_passed := w.verifications_passed +
        (if result.status = VerificationStatus.VERIFIED then 1 else 0) }
    (w', Except.ok result)

/-- A concrete frozen brain state for the witness. -/
def frozenBrainW : WestminsterWatch :=
  { arms := [("hansard", { tag := "hansard" })],
    arm_status := [("hansard", ArmStatus.PAUSED)], frozen := true,
    freeze_reason := some "Arm hansard health check failed",
    verifications_total := 4, verifications_passed := 3 }

end Brain

namespace TripleCheck

theorem check_pattern_passed (p : TripleCheckProtocol) (data : List (String × String))
    (dataType : String) : (check_pattern p data dataType).passed = true := rfl

/-- C1: for every `verify()` call, the overall status is VERIFIED iff all
three checks passed, FAILED iff zero passed; with exactly 1 or 2 passes it
is PARTIAL when the overall confidence is ≥ 0.5 and ESCALATED when it is
< 0.5, and the escalations counter is incremented exactly when the result
is ESCALATED. -/
theorem verify_overall_status (sha : String → String) (p : TripleCheckProtocol)
    (data : List (String × String)) (dataType : String)
    (r : TripleCheckResult) (q : TripleCheckProtocol) (n : Nat)
    (hrq : verify sha p data dataType = (r, q))
    (hn : n = (if r.primary_check.passed then 1 else 0) +
          (if r.secondary_check.passed then 1 else 0) +
          (if r.pattern_check.passed then 1 else 0)) :
    (r.overall_status = VerificationStatus.VERIFIED ↔ n = 3)
    ∧ (r.overall_status = VerificationStatus.FAILED ↔ n = 0)
    ∧ ((n = 1 ∨ n = 2) →
        ((r.overall_status = VerificationStatus.PARTIAL ↔ 1/2 ≤ r.overall_confidence)
         ∧ (r.overall_status = VerificationStatus.ESCALATED ↔ r.overall_confidence < 1/2)))
    ∧ (q.escalations = p.escalations + 1 ↔ r.overall_status = VerificationStatus.ESCALATED)
    ∧ (r.overall_status ≠ VerificationStatus.ESCALATED → q.escalations = p.escalations) := by
  have hr : r = (verify sha p data dataType).1 := by rw [hrq]
  have hq : q = (verify sha p data dataType).2 := by rw [hrq]
  subst hr hq hn
  rcases lt_or_le (((check_primary p data dataType).confidence +
      (check_secondary p data dataType).confidence +
      (check_pattern p data dataType).confidence) / 3) (2⁻¹ : ℚ) with hc | hc
  · cases hb1 : (check_primary p data dataType).passed <;>
      cases hb2 : (check_secondary p data dataType).passed <;>
      simp [verify, hb1, hb2, check_pattern_passed, hc, not_le.mpr hc]
  · have hnc := not_lt.mpr hc
    cases hb1 : (check_primary p data dataType).passed <;>
      cases hb2 : (check_secondary p data dataType).passed <;>
      simp [verify, hb1, hb2, check_pattern_passed, hc, hnc]

theorem itemLe_trans (a b c : String × String) (hab : itemLe a b = true)
    (hbc : itemLe b c = true) : itemLe a c = true := by
  simp only [itemLe, decide_eq_true_eq] at *
  rcases hab with h1 | ⟨h1, h1v⟩ <;> rcases hbc with h2 | ⟨h2, h2v⟩
  · exact Or.inl (lt_trans h1 h2)
  · exact Or.inl (h2 ▸ h1)
  · exact Or.inl (h1 ▸ h2)
  · exact Or.inr ⟨h1.trans h2, le_trans h1v h2v⟩

theorem itemLe_total (a b : String × String) :
    (itemLe a b || itemLe b a) = true := by
  simp only [itemLe, Bool.or_eq_true, decide_eq_true_eq]
  rcases lt_trichotomy a.1 b.1 with h | h | h
  · exact Or.inl (Or.inl h)
  · rcases le_total a.2 b.2 with hv | hv
    · exact Or.inl (Or.inr ⟨h, hv⟩)
    · exact Or.inr (Or.inr ⟨h.symm, hv⟩)
  · exact Or.inr (Or.inl h)

instance : IsAntisymm (String × String) (fun a b => itemLe a b = true) where
  antisymm a b hab hba := by
    simp only [itemLe, decide_eq_true_eq] at hab hba
    rcases hab with h1 | ⟨h1, h1v⟩ <;> rcases hba with h2 | ⟨h2, h2v⟩
    · exact absurd h2 (lt_asymm h1)
    · exact absurd h2 (ne_of_gt h1)
    · exact absurd h1 (ne_of_gt h2)
    · exact Prod.ext h1 (le_antisymm h1v h2v)

theorem mergeSort_itemLe_eq_of_perm (d1 d2 : List (String × String))
    (h : d1.Perm d2) : d1.mergeSort itemLe = d2.mergeSort itemLe := by
  refine List.eq_of_perm_of_sorted (r := fun a b => itemLe a b = true) ?_ ?_ ?_
  · exact (List.mergeSort_perm d1 itemLe).trans
      (h.trans (List.mergeSort_perm d2 itemLe).symm)
  · exact List.sorted_mergeSort itemLe_trans itemLe_total d1
  · exact List.sorted_mergeSort itemLe_trans itemLe_total d2

/-- C6: the fact-record hash is deterministic and order-independent: two
payloads with exactly the same key/value pairs (in any insertion order)
hash identically, and two `verify()` calls on records with identical
payload produce the same hash. -/
theorem hash_data_order_independent (sha : String → String)
    (d1 d2 : List (String × String)) (h : d1.Perm d2) :
    hash_data sha d1 = hash_data sha d2
    ∧ ∀ (p1 p2 : TripleCheckProtocol) (t1 t2 : String),
        (verify sha p1 d1 t1).1.data_hash = (verify sha p2 d2 t2).1.data_hash := by
  have hh : hash_data sha d1 = hash_data sha d2 := by
    unfold hash_data reprSortedItems
    rw [mergeSort_itemLe_eq_of_perm d1 d2 h]
  exact ⟨hh, fun p1 p2 t1 t2 => by simpa [verify] using hh⟩

theorem hash_data_order_independent_witness :
    ([("a", "1"), ("b", "2")] : List (String × String)).Perm [("b", "2"), ("a", "1")]
    ∧ hash_data id [("a", "1"), ("b", "2")] = hash_data id [("b", "2"), ("a", "1")] := by
  have hp : ([("a", "1"), ("b", "2")] : List (String × String)).Perm
      [("b", "2"), ("a", "1")] := List.Perm.swap _ _ _
  exact ⟨hp, (hash_data_order_independent id _ _ hp).1⟩

/-- C7 counterexample: in the Scenario A registry with every adapter
reporting a match, `verify()` yields overall confidence 271/300 ≈ 0.903 —
which is not within 0.01 of the claimed ≈ 0.967. -/
theorem scenarioA_confidence_not_967 :
    (verify id scenarioA [] "generic").1.overall_status = VerificationStatus.VERIFIED
    ∧ (verify id scenarioA [] "generic").1.overall_confidence = 271/300
    ∧ ¬ |(verify id scenarioA [] "generic").1.overall_confidence - 967/1000| < 1/100 := by
  refine ⟨by rfl, ?_, ?_⟩
  · simp [verify, check_primary, check_secondary, check_pattern, select_sources,
      match_historical, extract_features, scenarioA]
    norm_num
  · simp [verify, check_primary, check_secondary, check_pattern, select_sources,
      match_historical, extract_features, scenarioA]
    have habs : |(191 : ℚ)/3000| = 191/3000 := abs_of_pos (by norm_num)
    norm_num [habs]

/-- C7 (amended): with exactly {hansard: 0.99, parliament: 0.99} primary
and {theyworkforyou: 0.92} secondary and every adapter reporting a match,
`verify()` returns VERIFIED with overall confidence 271/300 ≈ 0.903, the
arithmetic mean of the three check confidences (0.99, 0.92, 0.8). -/
theorem scenarioA_verified (sha : String → String)
    (data : List (String × String)) (dataType : String) :
    (verify sha scenarioA data dataType).1.overall_status = VerificationStatus.VERIFIED
    ∧ (verify sha scenarioA data dataType).1.overall_confidence = 271/300
    ∧ (271/300 : ℚ) = (99/100 + 92/100 + 4/5) / 3 := by
  refine ⟨?_, ?_, by norm_num⟩
  · simp [verify, check_primary, check_secondary, check_pattern, select_sources,
      match_historical, extract_features, scenarioA]
  · simp [verify, check_primary, check_secondary, check_pattern, select_sources,
      match_historical, extract_features, scenarioA]
    norm_num

theorem verify_overall_status_witness :
    verify id TripleCheckProtocol.init [] "generic" =
      ((verify id TripleCheckProtocol.init [] "generic").1,
       (verify id TripleCheckProtocol.init [] "generic").2)
    ∧ ((verify id TripleCheckProtocol.init [] "generic").1.overall_status =
        VerificationStatus.VERIFIED ↔ (3 : Nat) = 3) :=
  ⟨rfl,
   (verify_overall_status id TripleCheckProtocol.init [] "generic"
      (verify id TripleCheckProtocol.init [] "generic").1
      (verify id TripleCheckProtocol.init [] "generic").2 3 rfl (by rfl)).1⟩

end TripleCheck

theorem lookup_updateA {β : Type} (l : List (String × β)) (k : String)
    (v : β) : List.lookup k (updateA l k v) = some v := by
  induction l with
  | nil => simp [updateA, List.lookup]
  | cons hd t ih =>
    by_cases hk : hd.1 = k
    · simp [updateA, hk, List.lookup]
    · have hbeq : (k == hd.1) = false := by
        simp [BEq.beq]
        exact fun he => hk he.symm
      simp [updateA, hk, List.lookup, hbeq, ih]

theorem length_updateA {β : Type} (l : List (String × β)) (k : String)
    (v : β) :
    (updateA l k v).length =
      if containsA l k = true then l.length else l.length + 1 := by
  induction l with
  | nil => simp [updateA, containsA]
  | cons hd t ih =>
    by_cases hk : hd.1 = k
    · have hbeq : (k == hd.1) = true := by simp [BEq.beq, hk]
      simp [updateA, hk, containsA, List.lookup, hbeq]
    · have hbeq : (k == hd.1) = false := by
        simp [BEq.beq]
        exact fun he => hk he.symm
      simp only [updateA, if_neg hk, List.length_cons, ih, containsA,
        List.lookup, hbeq]
      by_cases hc : containsA t k = true
      · simp [containsA] at hc
        simp [hc]
      · simp [containsA] at hc
        simp [hc]

namespace Freeze

/-- C2: `trigger_freeze` while already FROZEN is idempotent — it returns
the existing current FreezeEvent, appends nothing to the history, pauses
no component and leaves the whole state unchanged. -/
theorem trigger_freeze_idempotent (p : FreezeProtocol) (reason : FreezeReason)
    (trigger_source details : String) (affected : Option (List String))
    (h : p.state = SystemState.FROZEN) :
    trigger_freeze p reason trigger_source details affected =
      (p, p.current_freeze) := by
  simp [trigger_freeze, h]

theorem trigger_freeze_idempotent_witness :
    frozenW.state = SystemState.FROZEN
    ∧ trigger_freeze frozenW FreezeReason.API_ERROR "veritas" "second failure" none =
        (frozenW, some frozenEventW) :=
  ⟨rfl, trigger_freeze_idempotent frozenW _ _ _ _ rfl⟩

/-- C3: `unfreeze` with an empty authorization while FROZEN returns false
and changes nothing: the state stays FROZEN, the current event stays
unresolved, statuses and the recovery-attempt counter are untouched. -/
theorem unfreeze_empty_authorization (p : FreezeProtocol)
    (h : p.state = SystemState.FROZEN) :
    unfreeze p "" = (p, false) := by
  simp [unfreeze, h]

theorem unfreeze_empty_authorization_witness :
    frozenW.state = SystemState.FROZEN ∧ unfreeze frozenW "" = (frozenW, false) :=
  ⟨rfl, unfreeze_empty_authorization frozenW rfl⟩

/-- C10: for every authorization string (even the empty one), `unfreeze`
while the system is not FROZEN returns true immediately and changes no
state. -/
theorem unfreeze_not_frozen (p : FreezeProtocol) (authorization : String)
    (h : p.state ≠ SystemState.FROZEN) :
    unfreeze p authorization = (p, true) := by
  simp [unfreeze, h]

theorem unfreeze_not_frozen_witness :
    activeW.state ≠ SystemState.FROZEN
    ∧ unfreeze activeW "" = (activeW, true) :=
  ⟨by decide, unfreeze_not_frozen activeW "" (by decide)⟩

theorem digitChar_inj_lt :
    ∀ d1 < 10, ∀ d2 < 10, Nat.digitChar d1 = Nat.digitChar d2 → d1 = d2 := by
  decide

theorem map_digitChar_inj : ∀ (l1 l2 : List Nat), (∀ d ∈ l1, d < 10) →
    (∀ d ∈ l2, d < 10) → l1.map Nat.digitChar = l2.map Nat.digitChar →
    l1 = l2 := by
  intro l1
  induction l1 with
  | nil => intro l2 _ _ h; cases l2 <;> simp_all
  | cons a t ih =>
    intro l2 h1 h2 h
    cases l2 with
    | nil => simp_all
    | cons b t2 =>
      simp only [List.map_cons, List.cons.injEq] at h
      have ha : a = b :=
        digitChar_inj_lt a (h1 a (by simp)) b (h2 b (by simp)) h.1
      have ht : t = t2 :=
        ih t2 (fun d hd => h1 d (by simp [hd]))
          (fun d hd => h2 d (by simp [hd])) h.2
      rw [ha, ht]

theorem decimalRepr_injective (t1 t2 : Nat)
    (h : decimalRepr t1 = decimalRepr t2) : t1 = t2 := by
  have hdata : (((Nat.digits 10 t1).map Nat.digitChar).reverse) =
      (((Nat.digits 10 t2).map Nat.digitChar).reverse) :=
    congrArg String.data h
  have hmap := List.reverse_injective hdata
  have hdig : Nat.digits 10 t1 = Nat.digits 10 t2 :=
    map_digitChar_inj _ _
      (fun d hd => Nat.digits_lt_base (by norm_num) hd)
      (fun d hd => Nat.digits_lt_base (by norm_num) hd) hmap
  calc t1 = Nat.ofDigits 10 (Nat.digits 10 t1) := (Nat.ofDigits_digits 10 t1).symm
    _ = Nat.ofDigits 10 (Nat.digits 10 t2) := by rw [hdig]
    _ = t2 := Nat.ofDigits_digits 10 t2

theorem freeze_event_id_inj (t1 t2 : Nat)
    (h : freeze_event_id t1 = freeze_event_id t2) : t1 = t2 := by
  unfold freeze_event_id at h
  have h2 := congrArg String.data h
  simp [String.data_append] at h2
  exact decimalRepr_injective t1 t2 (String.ext h2)

theorem execute_recovery_action_preserves (p : FreezeProtocol)
    (a : RecoveryAction) :
    (execute_recovery_action p a).1.state = p.state
    ∧ (execute_recovery_action p a).1.current_freeze = p.current_freeze
    ∧ (execute_recovery_action p a).1.freeze_history = p.freeze_history
    ∧ (execute_recovery_action p a).1.recovery_attempts = p.recovery_attempts
    ∧ (execute_recovery_action p a).1.max_auto_recovery_attempts =
        p.max_auto_recovery_attempts := by
  cases a <;> cases hcf : p.current_freeze <;>
    simp [execute_recovery_action, hcf]

theorem execute_actions_preserves : ∀ (l : List RecoveryAction)
    (p : FreezeProtocol),
    (execute_actions p l).1.state = p.state
    ∧ (execute_actions p l).1.current_freeze = p.current_freeze
    ∧ (execute_actions p l).1.freeze_history = p.freeze_history
    ∧ (execute_actions p l).1.recovery_attempts = p.recovery_attempts
    ∧ (execute_actions p l).1.max_auto_recovery_attempts =
        p.max_auto_recovery_attempts := by
  intro l
  induction l with
  | nil => intro p; simp [execute_actions]
  | cons a rest ih =>
    intro p
    have h1 := execute_recovery_action_preserves p a
    by_cases hr : (execute_recovery_action p a).2 = true
    · have h2 := ih (execute_recovery_action p a).1
      simp only [execute_actions, hr, if_true]
      exact ⟨h2.1.trans h1.1, h2.2.1.trans h1.2.1, h2.2.2.1.trans h1.2.2.1,
        h2.2.2.2.1.trans h1.2.2.2.1, h2.2.2.2.2.trans h1.2.2.2.2⟩
    · simp only [execute_actions, hr, if_false]
      exact h1

theorem run_diagnostics_preserves (p : FreezeProtocol) :
    (run_diagnostics p).1.state = p.state
    ∧ (run_diagnostics p).1.current_freeze = p.current_freeze
    ∧ (run_diagnostics p).1.freeze_history = p.freeze_history
    ∧ (run_diagnostics p).1.recovery_attempts = p.recovery_attempts
    ∧ (run_diagnostics p).1.max_auto_recovery_attempts =
        p.max_auto_recovery_attempts
    ∧ (run_diagnostics p).1.components = p.components := by
  simp [run_diagnostics]

theorem unfreeze_last_event_id (p : FreezeProtocol) (auth : String)
    (e : FreezeEvent) (h1 : p.current_freeze = some e)
    (h2 : p.freeze_history.getLast? = some e) :
    ((unfreeze p auth).1.freeze_history.getLast?).map FreezeEvent.event_id =
      some e.event_id := by
  by_cases hs : p.state = SystemState.FROZEN
  · by_cases ha : auth = ""
    · simp [unfreeze, hs, ha, h2]
    · simp [unfreeze, hs, ha, h1, h2, List.getLast?_concat]
  · simp [unfreeze, hs, h2]

theorem attempt_auto_recovery_last_event_id (p : FreezeProtocol)
    (d : DiagnosticReport) (e : FreezeEvent)
    (h1 : p.current_freeze = some e)
    (h2 : p.freeze_history.getLast? = some e) :
    ((attempt_auto_recovery p d).1.freeze_history.getLast?).map
      FreezeEvent.event_id = some e.event_id := by
  by_cases hh : d.human_intervention_required = true
  · simp [attempt_auto_recovery, hh, h2]
  · by_cases hm : p.max_auto_recovery_attempts ≤ p.recovery_attempts
    · simp [attempt_auto_recovery, hh, hm, h2]
    · have hr := execute_actions_preserves d.recommended_actions
        { p with recovery_attempts := p.recovery_attempts + 1 }
      have hrc : (execute_actions
          { p with recovery_attempts := p.recovery_attempts + 1 }
          d.recommended_actions).1.current_freeze = some e := by
        rw [hr.2.1]; exact h1
      have hrh : (execute_actions
          { p with recovery_attempts := p.recovery_attempts + 1 }
          d.recommended_actions).1.freeze_history.getLast? = some e := by
        rw [hr.2.2.1]; exact h2
      by_cases hb : (execute_actions
          { p with recovery_attempts := p.recovery_attempts + 1 }
          d.recommended_actions).2 = true
      · have hq := run_diagnostics_preserves (execute_actions
          { p with recovery_attempts := p.recovery_attempts + 1 }
          d.recommended_actions).1
        by_cases hi : (4:ℚ)/5 ≤ (run_diagnostics (execute_actions
            { p with recovery_attempts := p.recovery_attempts + 1 }
            d.recommended_actions).1).2.data_integrity_score
        · have hu := unfreeze_last_event_id (run_diagnostics (execute_actions
              { p with recovery_attempts := p.recovery_attempts + 1 }
              d.recommended_actions).1).1 "auto_recovery" e
            (by rw [hq.2.1]; exact hrc) (by rw [hq.2.2.1]; exact hrh)
          simpa [attempt_auto_recovery, hh, hm, hb, hi] using hu
        · have hl : (run_diagnostics (execute_actions
              { p with recovery_attempts := p.recovery_attempts + 1 }
              d.recommended_actions).1).1.freeze_history.getLast? = some e := by
            rw [hq.2.2.1]; exact hrh
          simp [attempt_auto_recovery, hh, hm, hb, hi, hl]
      · simp [attempt_auto_recovery, hh, hm, hb, hrh]

theorem after_freeze_last_id (p1 : FreezeProtocol) (ev : FreezeEvent)
    (b : Bool) (hcur : p1.current_freeze = some ev)
    (hlast : p1.freeze_history.getLast? = some ev) :
    (((if b = true then
        (attempt_auto_recovery (run_diagnostics (halt_components p1)).1
          (run_diagnostics (halt_components p1)).2).1
       else (run_diagnostics (halt_components p1)).1)).freeze_history.getLast?).map
      FreezeEvent.event_id = some ev.event_id := by
  have hcur2 : (run_diagnostics (halt_components p1)).1.current_freeze =
      some ev := by
    rw [(run_diagnostics_preserves _).2.1]
    simpa [halt_components] using hcur
  have hlast2 : (run_diagnostics (halt_components p1)).1.freeze_history.getLast? =
      some ev := by
    rw [(run_diagnostics_preserves _).2.2.1]
    simpa [halt_components] using hlast
  cases b
  · simp [hlast2]
  · simp only [if_true]
    exact attempt_auto_recovery_last_event_id _ _ _ hcur2 hlast2

theorem trigger_freeze_new_event_id (p : FreezeProtocol)
    (reason : FreezeReason) (src details : String)
    (affected : Option (List String)) (h : p.state ≠ SystemState.FROZEN) :
    ((trigger_freeze p reason src details affected).2).map
      FreezeEvent.event_id = some (freeze_event_id p.clock) := by
  simp only [trigger_freeze, if_neg h]
  exact after_freeze_last_id
    { p with
      state := SystemState.FROZEN,
      current_freeze := some (new_freeze_event p reason src details affected),
      freeze_history :=
        p.freeze_history ++ [new_freeze_event p reason src details affected] }
    (new_freeze_event p reason src details affected)
    p.auto_recovery_enabled rfl (List.getLast?_concat _)

/-- C8 (amended): FreezeEvent ids encode the trigger time at second
granularity, so two freezes triggered in different seconds always receive
different event ids (while freezes within one second share an id). -/
theorem freeze_event_ids_distinct_across_seconds
    (p q : FreezeProtocol) (rp rq : FreezeReason) (sp sq dp dq : String)
    (ap aq : Option (List String)) (ep eq' : FreezeEvent)
    (hp : p.state ≠ SystemState.FROZEN) (hq : q.state ≠ SystemState.FROZEN)
    (hclock : p.clock ≠ q.clock)
    (hep : (trigger_freeze p rp sp dp ap).2 = some ep)
    (heq : (trigger_freeze q rq sq dq aq).2 = some eq') :
    ep.event_id ≠ eq'.event_id := by
  have h1 := trigger_freeze_new_event_id p rp sp dp ap hp
  have h2 := trigger_freeze_new_event_id q rq sq dq aq hq
  rw [hep] at h1
  rw [heq] at h2
  simp only [Option.map_some', Option.some.injEq] at h1 h2
  rw [h1, h2]
  intro hcontra
  exact hclock (freeze_event_id_inj p.clock q.clock hcontra)

theorem c8_id_eval : freeze_event_id 5 = "freeze_5" := by
  have h : Nat.digits 10 5 = [5] := by norm_num
  simp [freeze_event_id, decimalRepr, h]
  rfl

theorem c8_first_eval :
    trigger_freeze { clock := 5 } FreezeReason.ARM_FAILURE "hansard"
      "first failure" none = (c8_afterFirst, some c8_ev1) := by
  have h45 : ¬ ((4:ℚ)/5 ≤ 0) := by norm_num
  simp [trigger_freeze, new_freeze_event, resolve_affected, c8_id_eval,
    halt_components, run_diagnostics, attempt_auto_recovery,
    execute_actions, execute_recovery_action, calculate_integrity_score,
    determine_recovery_actions, updateA, c8_ev1, c8_afterFirst, h45]

theorem c8_unfreeze_eval :
    unfreeze c8_afterFirst "admin_authorization" = (c8_afterUnfreeze, true) := by
  simp [unfreeze, updateA, c8_ev1, c8_ev1r, c8_afterFirst, c8_afterUnfreeze]

theorem c8_second_eval :
    trigger_freeze c8_afterUnfreeze FreezeReason.ARM_FAILURE "hansard"
      "second failure" none = (c8_afterSecond, some c8_ev2) := by
  have h45 : ¬ ((4:ℚ)/5 ≤ 0) := by norm_num
  simp [trigger_freeze, new_freeze_event, resolve_affected, c8_id_eval,
    halt_components, run_diagnostics, attempt_auto_recovery,
    execute_actions, execute_recovery_action, calculate_integrity_score,
    determine_recovery_actions, updateA, c8_ev2, c8_afterUnfreeze,
    c8_afterSecond, h45]

/-- C8 counterexample: freeze, unfreeze, freeze again within the same
second (`clock = 5`) leaves two distinct FreezeEvents in the history that
carry the identical event id `"freeze_5"`. -/
theorem freeze_event_id_collision_within_second :
    ((trigger_freeze
        ((unfreeze
            ((trigger_freeze { clock := 5 } FreezeReason.ARM_FAILURE
                "hansard" "first failure" none).1)
            "admin_authorization").1)
        FreezeReason.ARM_FAILURE "hansard" "second failure" none).1.freeze_history.map
      FreezeEvent.event_id = ["freeze_5", "freeze_5"])
    ∧ ((trigger_freeze
        ((unfreeze
            ((trigger_freeze { clock := 5 } FreezeReason.ARM_FAILURE
                "hansard" "first failure" none).1)
            "admin_authorization").1)
        FreezeReason.ARM_FAILURE "hansard" "second failure" none).1.freeze_history.get? 0 ≠
       (trigger_freeze
        ((unfreeze
            ((trigger_freeze { clock := 5 } FreezeReason.ARM_FAILURE
                "hansard" "first failure" none).1)
            "admin_authorization").1)
        FreezeReason.ARM_FAILURE "hansard" "second failure" none).1.freeze_history.get? 1) := by
  rw [c8_first_eval]
  rw [show (c8_afterFirst, some c8_ev1).1 = c8_afterFirst from rfl]
  rw [c8_unfreeze_eval]
  rw [show (c8_afterUnfreeze, true).1 = c8_afterUnfreeze from rfl]
  rw [c8_second_eval]
  rw [show (c8_afterSecond, some c8_ev2).1 = c8_afterSecond from rfl]
  constructor
  · simp [c8_afterSecond, c8_ev1r, c8_ev1, c8_ev2]
  · simp [c8_afterSecond, c8_ev1r, c8_ev1, c8_ev2]

theorem c8_id6_eval : freeze_event_id 6 = "freeze_6" := by
  have h : Nat.digits 10 6 = [6] := by norm_num
  simp [freeze_event_id, decimalRepr, h]
  rfl

theorem c8_sixth_eval :
    trigger_freeze { clock := 6 } FreezeReason.ARM_FAILURE "hansard"
      "first failure" none = (c8_afterSixth, some c8_ev6) := by
  have h45 : ¬ ((4:ℚ)/5 ≤ 0) := by norm_num
  simp [trigger_freeze, new_freeze_event, resolve_affected, c8_id6_eval,
    halt_components, run_diagnostics, attempt_auto_recovery,
    execute_actions, execute_recovery_action, calculate_integrity_score,
    determine_recovery_actions, updateA, c8_ev6, c8_afterSixth, h45]

theorem freeze_event_ids_distinct_across_seconds_witness :
    ({ clock := 5 } : FreezeProtocol).state ≠ SystemState.FROZEN
    ∧ ({ clock := 6 } : FreezeProtocol).state ≠ SystemState.FROZEN
    ∧ ({ clock := 5 } : FreezeProtocol).clock ≠
        ({ clock := 6 } : FreezeProtocol).clock
    ∧ c8_ev1.event_id ≠ c8_ev6.event_id :=
  ⟨by decide, by decide, by decide,
   freeze_event_ids_distinct_across_seconds { clock := 5 } { clock := 6 }
     FreezeReason.ARM_FAILURE FreezeReason.ARM_FAILURE "hansard" "hansard"
     "first failure" "first failure" none none c8_ev1 c8_ev6
     (by decide) (by decide) (by decide)
     (by rw [c8_first_eval]) (by rw [c8_sixth_eval])⟩

theorem unfreeze_auto_recovery_state (p : FreezeProtocol)
    (h : p.state = SystemState.FROZEN) :
    (unfreeze p "auto_recovery").1.state = SystemState.ACTIVE := by
  simp [unfreeze, h]

/-- C4: auto-recovery is skipped entirely when human intervention is
required (attempt counter at the configured maximum, or freeze reason
SECURITY_CONCERN / DATA_INTEGRITY); otherwise it increments the attempt
counter, executes the diagnostics' recommended actions in order stopping
at the first failure, re-runs diagnostics, and unfreezes with
authorization "auto_recovery" iff the post-recovery integrity score is
≥ 0.8, leaving the system FROZEN otherwise. -/
theorem attempt_auto_recovery_spec (p p1 p2 : FreezeProtocol)
    (e : FreezeEvent) (d : DiagnosticReport) (r : FreezeProtocol × Bool)
    (hs : p.state = SystemState.FROZEN) (hc : p.current_freeze = some e)
    (hrd : run_diagnostics p = (p1, d))
    (hp2 : p2 = { p1 with recovery_attempts := p1.recovery_attempts + 1 })
    (hr : r = execute_actions p2 d.recommended_actions) :
    (d.human_intervention_required =
      (decide (p.max_auto_recovery_attempts ≤ p.recovery_attempts) ||
       decide (e.reason = FreezeReason.SECURITY_CONCERN ∨
         e.reason = FreezeReason.DATA_INTEGRITY)))
    ∧ (d.human_intervention_required = true →
        attempt_auto_recovery p1 d = (p1, false))
    ∧ (d.human_intervention_required = false →
        attempt_auto_recovery p1 d =
          (if r.2 = true then
            (if (4:ℚ)/5 ≤ (run_diagnostics r.1).2.data_integrity_score then
              ((unfreeze (run_diagnostics r.1).1 "auto_recovery").1, true)
             else ((run_diagnostics r.1).1, false))
           else (r.1, false))
        ∧ ((attempt_auto_recovery p1 d).1.state = SystemState.ACTIVE ↔
            (r.2 = true ∧
             (4:ℚ)/5 ≤ (run_diagnostics r.1).2.data_integrity_score))
        ∧ ((attempt_auto_recovery p1 d).1.state = SystemState.FROZEN ↔
            ¬ (r.2 = true ∧
             (4:ℚ)/5 ≤ (run_diagnostics r.1).2.data_integrity_score))) := by
  have hd : d = (run_diagnostics p).2 := by rw [hrd]
  have hp1 : p1 = (run_diagnostics p).1 := by rw [hrd]
  have hhd : d.human_intervention_required =
      (decide (p.max_auto_recovery_attempts ≤ p.recovery_attempts) ||
       decide (e.reason = FreezeReason.SECURITY_CONCERN ∨
         e.reason = FreezeReason.DATA_INTEGRITY)) := by
    rw [hd]; simp [run_diagnostics, hc]
  refine ⟨hhd, ?_, ?_⟩
  · intro hh
    simp [attempt_auto_recovery, hh]
  · intro hh
    have hmax : ¬ (p1.max_auto_recovery_attempts ≤ p1.recovery_attempts) := by
      rw [hhd] at hh
      simp only [Bool.or_eq_false_iff, decide_eq_false_iff_not] at hh
      rw [hp1, (run_diagnostics_preserves p).2.2.2.1,
        (run_diagnostics_preserves p).2.2.2.2.1]
      exact hh.1
    have hstate1 : p1.state = SystemState.FROZEN := by
      rw [hp1, (run_diagnostics_preserves p).1]; exact hs
    subst hp2
    subst hr
    have hexec := execute_actions_preserves d.recommended_actions
      { p1 with recovery_attempts := p1.recovery_attempts + 1 }
    have hrstate : (execute_actions
        { p1 with recovery_attempts := p1.recovery_attempts + 1 }
        d.recommended_actions).1.state = SystemState.FROZEN := by
      rw [hexec.1]; exact hstate1
    have hqstate : (run_diagnostics (execute_actions
        { p1 with recovery_attempts := p1.recovery_attempts + 1 }
        d.recommended_actions).1).1.state = SystemState.FROZEN := by
      rw [(run_diagnostics_preserves _).1]; exact hrstate
    have hequ : attempt_auto_recovery p1 d =
        (if (execute_actions
            { p1 with recovery_attempts := p1.recovery_attempts + 1 }
            d.recommended_actions).2 = true then
          (if (4:ℚ)/5 ≤ (run_diagnostics (execute_actions
              { p1 with recovery_attempts := p1.recovery_attempts + 1 }
              d.recommended_actions).1).2.data_integrity_score then
            ((unfreeze (run_diagnostics (execute_actions
                { p1 with recovery_attempts := p1.recovery_attempts + 1 }
                d.recommended_actions).1).1 "auto_recovery").1, true)
           else ((run_diagnostics (execute_actions
              { p1 with recovery_attempts := p1.recovery_attempts + 1 }
              d.recommended_actions).1).1, false))
         else ((execute_actions
            { p1 with recovery_attempts := p1.recovery_attempts + 1 }
            d.recommended_actions).1, false)) := by
      simp [attempt_auto_recovery, hh, hmax]
    refine ⟨hequ, ?_, ?_⟩
    · rw [hequ]
      by_cases hb : (execute_actions
          { p1 with recovery_attempts := p1.recovery_attempts + 1 }
          d.recommended_actions).2 = true
      · by_cases hi : (4:ℚ)/5 ≤ (run_diagnostics (execute_actions
            { p1 with recovery_attempts := p1.recovery_attempts + 1 }
            d.recommended_actions).1).2.data_integrity_score
        · simp [hb, hi, unfreeze_auto_recovery_state _ hqstate]
        · simp [hb, hi, hqstate]
      · simp [hb, hrstate]
    · rw [hequ]
      by_cases hb : (execute_actions
          { p1 with recovery_attempts := p1.recovery_attempts + 1 }
          d.recommended_actions).2 = true
      · by_cases hi : (4:ℚ)/5 ≤ (run_diagnostics (execute_actions
            { p1 with recovery_attempts := p1.recovery_attempts + 1 }
            d.recommended_actions).1).2.data_integrity_score
        · simp [hb, hi, unfreeze_auto_recovery_state _ hqstate]
        · simp [hb, hi, hqstate]
      · simp [hb, hrstate]

theorem attempt_auto_recovery_spec_witness :
    c4_state.state = SystemState.FROZEN
    ∧ c4_state.current_freeze = some c4_event
    ∧ (run_diagnostics c4_state).2.human_intervention_required =
        (decide (c4_state.max_auto_recovery_attempts ≤
            c4_state.recovery_attempts) ||
         decide (c4_event.reason = FreezeReason.SECURITY_CONCERN ∨
           c4_event.reason = FreezeReason.DATA_INTEGRITY))
    ∧ attempt_auto_recovery (run_diagnostics c4_state).1
        (run_diagnostics c4_state).2 = ((run_diagnostics c4_state).1, false) :=
  ⟨rfl, rfl,
   (attempt_auto_recovery_spec c4_state (run_diagnostics c4_state).1
      { (run_diagnostics c4_state).1 with
          recovery_attempts := (run_diagnostics c4_state).1.recovery_attempts + 1 }
      c4_event (run_diagnostics c4_state).2
      (execute_actions
        { (run_diagnostics c4_state).1 with
            recovery_attempts := (run_diagnostics c4_state).1.recovery_attempts + 1 }
        (run_diagnostics c4_state).2.recommended_actions)
      rfl rfl rfl rfl rfl).1,
   (attempt_auto_recovery_spec c4_state (run_diagnostics c4_state).1
      { (run_diagnostics c4_state).1 with
          recovery_attempts := (run_diagnostics c4_state).1.recovery_attempts + 1 }
      c4_event (run_diagnostics c4_state).2
      (execute_actions
        { (run_diagnostics c4_state).1 with
            recovery_attempts := (run_diagnostics c4_state).1.recovery_attempts + 1 }
        (run_diagnostics c4_state).2.recommended_actions)
      rfl rfl rfl rfl rfl).2.1 rfl⟩

end Freeze

namespace Brain

/-- C5: for every fact record, the orchestrator's `triple_check` on a
frozen system fails immediately with no side effects — the verification
counters and all other state are unchanged. -/
theorem triple_check_frozen_rejects (w : WestminsterWatch)
    (data : List (String × String))
    (primary_sources secondary_sources : List String)
    (h : w.frozen = true) :
    triple_check w data primary_sources secondary_sources =
      (w, Except.error "System is frozen - cannot verify") := by
  simp [triple_check, h]

theorem triple_check_frozen_rejects_witness :
    frozenBrainW.frozen = true
    ∧ triple_check frozenBrainW [("id", "vote_001")] ["hansard.parliament.uk"]
        ["theyworkforyou.com"] =
      (frozenBrainW, Except.error "System is frozen - cannot verify") :=
  ⟨rfl, triple_check_frozen_rejects frozenBrainW _ _ _ rfl⟩

end Brain

/-- C9 counterexample: at a fresh freeze supervisor, registering a
component records initial status `"ACTIVE"`, not INITIALIZING. -/
theorem register_component_initial_status_counterexample :
    (Freeze.register_component {} "hansard" {}).component_status =
      [("hansard", "ACTIVE")]
    ∧ List.lookup "hansard"
        (Freeze.register_component {} "hansard" {}).component_status ≠
        some "INITIALIZING" := by
  constructor
  · rfl
  · decide

/-- C9 (amended): registering stores the component and sets the initial
status — "ACTIVE" in the freeze-protocol supervisor, INITIALIZING in the
brain's arm registry — and in both registries re-registering an existing
name replaces the entry rather than adding a second one. -/
theorem register_initial_status_and_replacement (p : Freeze.FreezeProtocol)
    (w : Brain.WestminsterWatch) (name : String) (c : Freeze.Component)
    (a : Brain.Arm) :
    List.lookup name (Freeze.register_component p name c).components = some c
    ∧ List.lookup name
        (Freeze.register_component p name c).component_status = some "ACTIVE"
    ∧ (Freeze.register_component p name c).components.length =
        (if containsA p.components name = true then p.components.length
         else p.components.length + 1)
    ∧ List.lookup name (Brain.register_arm w name a).arms = some a
    ∧ List.lookup name (Brain.register_arm w name a).arm_status =
        some Brain.ArmStatus.INITIALIZING
    ∧ (Brain.register_arm w name a).arms.length =
        (if containsA w.arms name = true then w.arms.length
         else w.arms.length + 1) := by
  refine ⟨?_, ?_, ?_, ?_, ?_, ?_⟩
  · exact lookup_updateA p.components name c
  · exact lookup_updateA p.component_status name "ACTIVE"
  · exact length_updateA p.components name c
  · exact lookup_updateA w.arms name a
  · exact lookup_updateA w.arm_status name Brain.ArmStatus.INITIALIZING
  · exact length_updateA w.arms name a

end Sentinel
